import Mathlib

/-!
Verification of the Grigori.Rlm sandbox core
(src/Grigori.Rlm.Sandbox/sandbox.py and main.py).

The embedding models:
* the AST-walking validator (CodeValidator / validate_code),
* the REPL state (RlmRepl) with its context accessors and the
  recursive-call broker (rlm_call plus make_recursive_callback),
* execution of a validated script (RlmRepl.execute), where the dynamic
  behaviour of exec-ing arbitrary Python against the restricted
  namespace is abstracted as the trace of observable effects the script
  performed through the capabilities present in that namespace
  (print, rlm_call, assignment to the result slot, and reads/writes
  through the context mapping that the namespace exposes by reference).
-/

namespace GrigoriRlm

/-! ### Character-list string helpers (Python code-point semantics) -/

/-- Python slicing s[:n] : the first n code points of a string. -/
def strTake (s : String) (n : Nat) : String := ⟨s.data.take n⟩

/-- Python str.lower(), modelled code-point-wise. -/
def pyLower (s : String) : String := ⟨s.data.map Char.toLower⟩

/-- needle begins hay (helper for substring containment). -/
def charsBeginWith : List Char → List Char → Bool
  | [], _ => true
  | _ :: _, [] => false
  | a :: as, b :: bs => a == b && charsBeginWith as bs

/-- Python "needle in hay" on code-point lists: substring containment. -/
def charsContain (needle : List Char) : List Char → Bool
  | [] => needle.isEmpty
  | b :: t => charsBeginWith needle (b :: t) || charsContain needle t

/-- Python "needle in hay" on strings. -/
def pySubstr (needle hay : String) : Bool := charsContain needle.data hay.data

/-- Python s.startswith(p), modelled on code-point lists. -/
def strStarts (s p : String) : Bool := charsBeginWith p.data s.data

/-- Python s.endswith(p), modelled on code-point lists. -/
def strEnds (s p : String) : Bool := charsBeginWith p.data.reverse s.data.reverse

/-! ### Python values (the fragment scripts put into the result slot) -/

/-- Runtime values a script can store in the pre-seeded result slot. -/
inductive PyVal where
  | str (s : String)
  | int (n : Int)
  | bool (b : Bool)
  | none
  deriving DecidableEq, Repr

/-- Python str(v): textual conversion of a value. -/
def pyStr : PyVal → String
  | .str s => s
  | .int n => toString n
  | .bool b => if b then "True" else "False"
  | .none => "None"

/-! ### The validator (sandbox.py, CodeValidator / validate_code)

The validator walks the parsed syntax tree.  We embed the node kinds the
visitor inspects; every other node only contributes its children via
generic_visit, which the statement/expression recursion below performs.
-/

/-- BLOCKED_NAMES of CodeValidator (sandbox.py lines 18-23). -/
def BLOCKED_NAMES : List String :=
  ["__import__", "eval", "exec", "compile", "open",
   "input", "breakpoint", "globals", "locals", "vars",
   "dir", "type", "object", "getattr", "setattr", "delattr",
   "hasattr", "memoryview", "bytearray", "bytes"]

/-- BLOCKED_ATTRS of CodeValidator (sandbox.py lines 25-31). -/
def BLOCKED_ATTRS : List String :=
  ["__class__", "__bases__", "__mro__", "__subclasses__",
   "__globals__", "__code__", "__builtins__", "__import__",
   "__dict__", "__module__", "__self__", "__func__",
   "__closure__", "__annotations__", "__kwdefaults__",
   "__defaults__", "__qualname__", "__reduce__", "__reduce_ex__"]

/-- Double-leading-and-trailing-underscore convention check. -/
def isDunder (s : String) : Bool := strStarts s "__" && strEnds s "__"

/-- Expressions of the embedded Python AST fragment. -/
inductive PyExpr where
  | name (id : String)
  | attrAccess (val : PyExpr) (attr : String)
  | call (func : PyExpr) (args : List PyExpr)
  | const (v : PyVal)
  | subscript (val : PyExpr) (idx : PyExpr)

/-- Statements of the embedded Python AST fragment. -/
inductive PyStmt where
  | importStmt (names : List String)
  | importFrom (module : String)
  | assign (targets : List PyExpr) (value : PyExpr)
  | exprStmt (e : PyExpr)

/-- The functions whose string-literal second argument visit_Call inspects. -/
def GETATTR_FAMILY : List String := ["getattr", "setattr", "delattr", "hasattr"]

/-- visit_Call's own check (sandbox.py lines 59-66): a dynamic-attribute
call whose second argument is a string constant naming a blocked or
private member. -/
def callCheck (func : PyExpr) (args : List PyExpr) : List String :=
  match func with
  | .name id =>
    if GETATTR_FAMILY.contains id then
      match args with
      | _ :: .const (.str attrName) :: _ =>
        if BLOCKED_ATTRS.contains attrName || strStarts attrName "_" then
          [s!"Blocked dynamic attribute access: {attrName}"]
        else []
      | _ => []
    else []
  | _ => []

mutual

/-- Errors produced by visiting one expression node and its children
(visit_Name, visit_Attribute, visit_Call, generic_visit). -/
def visitExpr : PyExpr → List String
  | .name id =>
    if BLOCKED_NAMES.contains id then [s!"Blocked function: {id}"]
    else if isDunder id then [s!"Dunder names not allowed: {id}"]
    else []
  | .attrAccess val attr =>
    (if BLOCKED_ATTRS.contains attr then [s!"Blocked attribute: {attr}"]
     else if isDunder attr then [s!"Dunder attributes not allowed: {attr}"]
     else if strStarts attr "_" then [s!"Private attributes not allowed: {attr}"]
     else []) ++ visitExpr val
  | .call func args => callCheck func args ++ visitExpr func ++ visitExprList args
  | .const _ => []
  | .subscript val idx => visitExpr val ++ visitExpr idx
termination_by structural e => e

/-- generic_visit over a list of child expressions. -/
def visitExprList : List PyExpr → List String
  | [] => []
  | e :: es => visitExpr e ++ visitExprList es
termination_by structural l => l

end

/-- Errors produced by visiting one statement (visit_Import,
visit_ImportFrom, generic_visit on other statements). -/
def visitStmt : PyStmt → List String
  | .importStmt names =>
    let joined := String.intercalate ", " names
    [s!"Import statements not allowed: import {joined}"]
  | .importFrom module =>
    [s!"Import statements not allowed: from {module} import ..."]
  | .assign targets value => visitExprList targets ++ visitExpr value
  | .exprStmt e => visitExpr e

/-- generic_visit over the statements of a module. -/
def visitStmtList : List PyStmt → List String
  | [] => []
  | st :: rest => visitStmt st ++ visitStmtList rest

/-- Outcome of ast.parse on the submitted source: either a syntax error
or the module's statement list. -/
inductive ParseResult where
  | parseFailure (lineno : Nat) (msg : String)
  | moduleTree (stmts : List PyStmt)

/-- validate_code (sandbox.py lines 69-87): parse, walk, report. -/
def validate_code : ParseResult → Bool × List String
  | .parseFailure lineno msg => (false, [s!"Syntax error at line {lineno}: {msg}"])
  | .moduleTree stmts =>
    let errs := visitStmtList stmts
    (errs.isEmpty, errs)

/-! ### REPL state and accessors (sandbox.py, class RlmRepl) -/

/-- The context mapping: key to value, insertion order preserved. -/
abbrev Ctx := List (String × String)

/-- One outbound request the broker sends through the injected transport
(main.py lines 74-83: the POST body plus target URL). -/
structure TransportReq where
  url : String
  session_id : String
  prompt : String
  context : Ctx
  depth : Nat
  deriving DecidableEq, Repr

/-- Outcome of one transport attempt, as distinguished by the callback's
try/except structure (main.py lines 73-90). -/
inductive TransportOutcome where
  | success (result : Option String)
  | timeout
  | failure (msg : String)
  deriving DecidableEq, Repr

/-- The state of one RlmRepl instance (sandbox.py lines 96-108). -/
structure RlmRepl where
  session_id : String
  context : Ctx
  _max_output_len : Nat
  _call_count : Nat
  _max_calls : Nat
  deriving DecidableEq, Repr

/-- RlmRepl.__init__ with the constructor defaults
(max_output_len 50000 unless overridden, _call_count 0, _max_calls 20). -/
def mkRlmRepl (session_id : String) (context : Ctx) (max_output_len : Nat) : RlmRepl :=
  { session_id := session_id, context := context, _max_output_len := max_output_len,
    _call_count := 0, _max_calls := 20 }

/-- Default for max_output_len in RlmRepl.__init__. -/
def DEFAULT_MAX_OUTPUT_LEN : Nat := 50000

/-- First-match association lookup, the dict read of context.get. -/
def lookupCtx (ctx : Ctx) (key : String) : Option String :=
  match ctx with
  | [] => Option.none
  | (k, v) :: rest => if k == key then some v else lookupCtx rest key

/-- RlmRepl.get_context (sandbox.py lines 132-134). -/
def get_context (repl : RlmRepl) (key : String) : String :=
  match lookupCtx repl.context key with
  | some v => v
  | Option.none => "[Key \x27" ++ key ++ "\x27 not found in context]"

/-- RlmRepl.list_context_keys (sandbox.py lines 136-138). -/
def list_context_keys (repl : RlmRepl) : List String :=
  repl.context.map (fun kv => kv.1)

/-- RlmRepl.search_context (sandbox.py lines 140-146). -/
def search_context (repl : RlmRepl) (pattern : String) : Ctx :=
  let pattern_lower := pyLower pattern
  repl.context.filter
    (fun kv => pySubstr pattern_lower (pyLower kv.1) || pySubstr pattern_lower (pyLower kv.2))

/-- A recursive callback as injected into RlmRepl: it yields the reply
string and the list of transport requests it performed. -/
abbrev Callback := String → Ctx → String × List TransportReq

/-- RlmRepl.rlm_call (sandbox.py lines 110-130): increment the counter,
enforce the call budget, default the subset, delegate. -/
def rlm_call (repl : RlmRepl) (recursive_callback : Callback)
    (prompt : String) (subset : Option Ctx) : String × RlmRepl × List TransportReq :=
  let repl1 := { repl with _call_count := repl._call_count + 1 }
  if repl1._call_count > repl1._max_calls then
    (s!"[ERROR: Max recursive calls ({repl1._max_calls}) exceeded]", repl1, [])
  else
    let subset1 := match subset with
      | Option.none => repl.context
      | some s => s
    let out := recursive_callback prompt subset1
    (out.1, repl1, out.2)

/-- The POST body and target the callback marshals for one outbound
delegation (main.py lines 75-83). -/
def outboundReq (callback_url session_id prompt : String) (subset : Ctx)
    (sent_depth : Nat) : TransportReq :=
  { url := callback_url ++ "/rlm/recurse", session_id := session_id,
    prompt := prompt, context := subset, depth := sent_depth }

/-- make_recursive_callback (main.py lines 65-92): the closure posted to
the orchestrator, with depth budget, timeout and failure tokens. -/
def make_recursive_callback (callback_url : String) (session_id : String)
    (depth : Nat) (max_depth : Nat)
    (transport : TransportReq → TransportOutcome) : Callback :=
  fun prompt subset =>
    if depth ≥ max_depth then
      (s!"[Max recursion depth ({max_depth}) reached]", [])
    else
      let req : TransportReq := outboundReq callback_url session_id prompt subset (depth + 1)
      match transport req with
      | .success r => (r.getD "", [req])
      | .timeout => ("[ERROR: Recursive call timed out]", [req])
      | .failure msg => (s!"[ERROR: Recursive call failed - {msg}]", [req])

/-! ### Script execution (sandbox.py, RlmRepl.execute)

exec of arbitrary Python against the restricted namespace is abstracted
as the trace of effects the script performed through the names that
namespace holds (sandbox.py lines 174-249): print writes to the captured
buffer, rlm_call delegates, assignment to the result slot, and writes
through the context dict, which line 179 places into the namespace as the
same mutable object the RlmRepl holds.  A run is the list of effects that
actually happened, cut short by the fault when one was raised.
-/

/-- A fault raised by the script and caught by execute
(sandbox.py lines 255-256). -/
structure Fault where
  kind : String
  msg : String
  trace : String
  deriving DecidableEq, Repr

/-- One observable effect of the running script. -/
inductive Action where
  | printAct (s : String)
  | rlmCallAct (prompt : String) (subset : Option Ctx)
  | setResult (v : PyVal)
  | ctxSet (key : String) (value : String)
  | ctxDel (key : String)
  deriving DecidableEq, Repr

/-- A submitted script: its parsed form for the validator, and its
dynamic behaviour for exec, as the effect trace it performs and the
fault (if any) that ended it. -/
structure Script where
  ast : ParseResult
  actions : List Action
  fault : Option Fault

/-- Python dict item assignment: update in place, else append. -/
def ctxSetFn (ctx : Ctx) (k v : String) : Ctx :=
  if ctx.any (fun p => p.1 == k) then
    ctx.map (fun p => if p.1 == k then (p.1, v) else p)
  else ctx ++ [(k, v)]

/-- Python dict item deletion. -/
def ctxDelFn (ctx : Ctx) (k : String) : Ctx :=
  ctx.filter (fun p => p.1 != k)

/-- Per-execution state while the script runs: the repl (whose context
the namespace aliases and whose counter rlm_call bumps), the captured
stdout, the result slot, and the transport requests made so far. -/
structure ExecState where
  repl : RlmRepl
  output : String
  result_slot : PyVal
  transportLog : List TransportReq

/-- The state at the start of the exec phase: result slot pre-seeded to
the empty string, empty capture buffer (sandbox.py lines 168-188). -/
def initState (repl : RlmRepl) : ExecState :=
  { repl := repl, output := "", result_slot := PyVal.str "", transportLog := [] }

/-- Effect of one action on the execution state. -/
def runAction (cb : Callback) (st : ExecState) : Action → ExecState
  | .printAct s => { st with output := st.output ++ s }
  | .rlmCallAct prompt subset =>
    let out := rlm_call st.repl cb prompt subset
    { st with repl := out.2.1, transportLog := st.transportLog ++ out.2.2 }
  | .setResult v => { st with result_slot := v }
  | .ctxSet k v => { st with repl := { st.repl with context := ctxSetFn st.repl.context k v } }
  | .ctxDel k => { st with repl := { st.repl with context := ctxDelFn st.repl.context k } }

/-- Run the script's effect trace in order. -/
def runActions (cb : Callback) (st : ExecState) : List Action → ExecState
  | [] => st
  | a :: rest => runActions cb (runAction cb st a) rest

/-- The truncation marker appended on overflow (sandbox.py line 262). -/
def TRUNCATION_MARKER : String := "\n[OUTPUT TRUNCATED]"

/-- Output truncation (sandbox.py lines 260-262). -/
def truncateOutput (max_output_len : Nat) (output : String) : String :=
  if output.length > max_output_len then
    strTake output max_output_len ++ TRUNCATION_MARKER
  else output

/-- Result coercion (sandbox.py lines 264-267): apply str() unless the
slot already holds a string. -/
def coerceResult : PyVal → String
  | .str s => s
  | v => pyStr v

/-- The dictionary RlmRepl.execute returns (sandbox.py lines 269-274). -/
structure ExecutionResult where
  result : String
  output : String
  error : Option String
  call_count : Nat
  deriving DecidableEq, Repr

/-- RlmRepl.execute (sandbox.py lines 148-274): validate, reject with the
joined violation messages, otherwise run the script's trace, then
truncate the capture, coerce the result slot and report the counter.
Returns the result together with the repl state after the execution and
the transport requests the execution performed. -/
def execute (repl : RlmRepl) (cb : Callback) (script : Script) :
    ExecutionResult × RlmRepl × List TransportReq :=
  let v := validate_code script.ast
  if v.1 then
    let st1 := runActions cb (initState repl) script.actions
    let error := script.fault.map (fun f => f.kind ++ ": " ++ f.msg ++ "\n" ++ f.trace)
    let output := truncateOutput st1.repl._max_output_len st1.output
    let result_value := coerceResult st1.result_slot
    ({ result := result_value, output := output, error := error,
       call_count := st1.repl._call_count }, st1.repl, st1.transportLog)
  else
    let joined := String.intercalate "\n" (v.2.map (fun e => "  - " ++ e))
    ({ result := "", output := "", error := some ("Code validation failed:\n" ++ joined),
       call_count := repl._call_count }, repl, [])

/-! ### The service handler (main.py, execute_code) -/

/-- The body of an /execute request (main.py lines 28-36), with the
submitted code abstracted as a Script. -/
structure ExecuteRequest where
  session_id : String
  script : Script
  context : Ctx
  callback_url : String
  depth : Nat
  max_depth : Nat

/-- The /execute response (main.py lines 38-44). -/
structure ExecuteResponse where
  session_id : String
  result : String
  output : String
  error : Option String
  call_count : Nat
  deriving DecidableEq, Repr

/-- execute_code (main.py lines 95-136): build the recursive callback,
construct a fresh RlmRepl for this request, execute, and marshal the
response.  Also returns the transport requests performed. -/
def execute_code (transport : TransportReq → TransportOutcome)
    (request : ExecuteRequest) : ExecuteResponse × List TransportReq :=
  let cb := make_recursive_callback request.callback_url request.session_id
    request.depth request.max_depth transport
  let repl := mkRlmRepl request.session_id request.context DEFAULT_MAX_OUTPUT_LEN
  let out := execute repl cb request.script
  ({ session_id := request.session_id, result := out.1.result, output := out.1.output,
     error := out.1.error, call_count := out.1.call_count }, out.2.2)

/-! ### Derived definitions and concrete fixtures -/

/-- The delegate operation as wired by execute_code: rlm_call bound to
the callback make_recursive_callback builds for one request. -/
def delegate (repl : RlmRepl) (callback_url session_id : String)
    (depth max_depth : Nat) (transport : TransportReq → TransportOutcome)
    (prompt : String) (subset : Option Ctx) : String × RlmRepl × List TransportReq :=
  rlm_call repl (make_recursive_callback callback_url session_id depth max_depth transport)
    prompt subset

/-- Number of delegation attempts (rlm_call invocations) in a trace. -/
def countDelegations : List Action → Nat
  | [] => 0
  | Action.rlmCallAct _ _ :: rest => countDelegations rest + 1
  | _ :: rest => countDelegations rest

/-- Does this action write through the exposed context reference? -/
def Action.mutatesContext : Action → Bool
  | .ctxSet _ _ => true
  | .ctxDel _ => true
  | _ => false

/-- The subset rlm_call forwards: the full context when none is given
(sandbox.py lines 127-128). -/
def subsetOrFull (repl : RlmRepl) : Option Ctx → Ctx
  | Option.none => repl.context
  | some s => s

/-- A sample context mapping. -/
def sampleCtx : Ctx := [("doc1", "alpha")]

/-- A callback that answers nothing and performs no transport calls. -/
def noopCb : Callback := fun _ _ => ("", [])

/-- A transport that always succeeds with the reply hi. -/
def okTransport : TransportReq → TransportOutcome :=
  fun _ => TransportOutcome.success (some "hi")

/-- A transport whose response carries no result field. -/
def absentTransport : TransportReq → TransportOutcome :=
  fun _ => TransportOutcome.success Option.none

/-- A transport that always times out. -/
def timeoutTransport : TransportReq → TransportOutcome :=
  fun _ => TransportOutcome.timeout

/-- A transport that always fails with a diagnostic. -/
def failTransport : TransportReq → TransportOutcome :=
  fun _ => TransportOutcome.failure "boom"

/-- A script rejected by the validator (it contains import os). -/
def importScript : Script :=
  { ast := ParseResult.moduleTree [PyStmt.importStmt ["os"]],
    actions := [], fault := Option.none }

/-- A validated script whose source is the single statement that assigns
through the exposed context reference, and whose trace performs exactly
that write. -/
def mutScript : Script :=
  { ast := ParseResult.moduleTree
      [PyStmt.assign [PyExpr.subscript (PyExpr.name "context") (PyExpr.const (PyVal.str "x"))]
        (PyExpr.const (PyVal.str "y"))],
    actions := [Action.ctxSet "x" "y"], fault := Option.none }

/-- A validated script that prints and sets the result slot. -/
def printScript : Script :=
  { ast := ParseResult.moduleTree
      [PyStmt.exprStmt (PyExpr.call (PyExpr.name "print") [PyExpr.const (PyVal.str "hello")]),
       PyStmt.assign [PyExpr.name "result"] (PyExpr.const (PyVal.str "ok"))],
    actions := [Action.printAct "hello\n", Action.setResult (PyVal.str "ok")],
    fault := Option.none }

/-- A validated script that delegates once with the full context. -/
def delegScript : Script :=
  { ast := ParseResult.moduleTree
      [PyStmt.assign [PyExpr.name "result"]
        (PyExpr.call (PyExpr.name "rlm_call") [PyExpr.const (PyVal.str "sub")])],
    actions := [Action.rlmCallAct "sub" Option.none], fault := Option.none }

/-- A validated script that prints, then raises; the trace ends at the
fault that execute catches. -/
def faultScript : Script :=
  { ast := ParseResult.moduleTree
      [PyStmt.exprStmt (PyExpr.call (PyExpr.name "print") [PyExpr.const (PyVal.str "before")]),
       PyStmt.assign [PyExpr.name "result"] (PyExpr.const (PyVal.int 1))],
    actions := [Action.printAct "before\n", Action.setResult (PyVal.int 1)],
    fault := some { kind := "ZeroDivisionError", msg := "division by zero",
                    trace := "Traceback (most recent call last): ..." } }

/-- A validated script that leaves a non-string value in the result slot. -/
def intResultScript : Script :=
  { ast := ParseResult.moduleTree
      [PyStmt.assign [PyExpr.name "result"] (PyExpr.const (PyVal.int 42))],
    actions := [Action.setResult (PyVal.int 42)], fault := Option.none }

/-- A repl that has already exhausted its call budget. -/
def exhaustedRepl : RlmRepl :=
  { mkRlmRepl "s" sampleCtx DEFAULT_MAX_OUTPUT_LEN with _call_count := 20 }

/-- An /execute request carrying the delegating script. -/
def delegReq : ExecuteRequest :=
  { session_id := "s", script := delegScript, context := sampleCtx,
    callback_url := "u", depth := 0, max_depth := 5 }

/-- An /execute request carrying the rejected script. -/
def importReq : ExecuteRequest :=
  { session_id := "s", script := importScript, context := sampleCtx,
    callback_url := "u", depth := 0, max_depth := 5 }

/-! ### Helper lemmas -/

/-- rlm_call only bumps the counter of the repl state it returns. -/
lemma rlm_call_state (repl : RlmRepl) (cb : Callback) (prompt : String) (subset : Option Ctx) :
    (rlm_call repl cb prompt subset).2.1 =
      { repl with _call_count := repl._call_count + 1 } := by
  unfold rlm_call
  dsimp only
  split <;> rfl

/-- Running a trace adds one to the counter per delegation attempt. -/
lemma runActions_call_count (cb : Callback) (acts : List Action) :
    ∀ st : ExecState,
      (runActions cb st acts).repl._call_count =
        st.repl._call_count + countDelegations acts := by
  induction acts with
  | nil => intro st; simp [runActions, countDelegations]
  | cons a rest ih =>
    intro st
    cases a with
    | printAct s => simp [runActions, runAction, countDelegations, ih]
    | rlmCallAct prompt subset =>
      simp only [runActions, runAction, countDelegations, ih, rlm_call_state]
      omega
    | setResult v => simp [runActions, runAction, countDelegations, ih]
    | ctxSet k v => simp [runActions, runAction, countDelegations, ih]
    | ctxDel k => simp [runActions, runAction, countDelegations, ih]

/-- Running a trace never changes the configured output ceiling. -/
lemma runActions_max_output_len (cb : Callback) (acts : List Action) :
    ∀ st : ExecState,
      (runActions cb st acts).repl._max_output_len = st.repl._max_output_len := by
  induction acts with
  | nil => intro st; simp [runActions]
  | cons a rest ih =>
    intro st
    cases a with
    | printAct s => simp [runActions, runAction, ih]
    | rlmCallAct prompt subset => simp [runActions, runAction, ih, rlm_call_state]
    | setResult v => simp [runActions, runAction, ih]
    | ctxSet k v => simp [runActions, runAction, ih]
    | ctxDel k => simp [runActions, runAction, ih]

/-- A trace with no context-writing action leaves the mapping unchanged. -/
lemma runActions_context_frame (cb : Callback) (acts : List Action)
    (h : ∀ a ∈ acts, a.mutatesContext = false) :
    ∀ st : ExecState, (runActions cb st acts).repl.context = st.repl.context := by
  induction acts with
  | nil => intro st; simp [runActions]
  | cons a rest ih =>
    intro st
    have ha := h a (List.mem_cons_self a rest)
    have hrest : ∀ a ∈ rest, a.mutatesContext = false :=
      fun b hb => h b (List.mem_cons_of_mem a hb)
    cases a with
    | printAct s => simp [runActions, runAction, ih hrest]
    | rlmCallAct prompt subset => simp [runActions, runAction, ih hrest, rlm_call_state]
    | setResult v => simp [runActions, runAction, ih hrest]
    | ctxSet k v => simp [Action.mutatesContext] at ha
    | ctxDel k => simp [Action.mutatesContext] at ha

/-- Result coercion agrees with textual conversion on every value. -/
lemma coerceResult_eq_pyStr (v : PyVal) : coerceResult v = pyStr v := by
  cases v <;> rfl

/-- The truncated output never exceeds the ceiling plus the marker. -/
lemma truncateOutput_length_le (m : Nat) (s : String) :
    (truncateOutput m s).length ≤ m + TRUNCATION_MARKER.length := by
  unfold truncateOutput
  split
  · rename_i hgt
    rw [String.length_append]
    have : (strTake s m).length = m := by
      simp only [strTake, String.length]
      rw [List.length_take]
      have : s.length = s.data.length := rfl
      omega
    omega
  · rename_i hle
    omega

/-! ### Claim theorems -/

/-- C2: a script the validator rejects makes execute_code return an
empty result and output, an error that is exactly the joined violation
messages (and in particular non-empty), call_count zero, and the script
is never run: no transport request is made. -/
theorem validation_rejection_result (transport : TransportReq → TransportOutcome)
    (request : ExecuteRequest)
    (h : (validate_code request.script.ast).1 = false) :
    (execute_code transport request).1.result = "" ∧
    (execute_code transport request).1.output = "" ∧
    (execute_code transport request).1.error =
      some ("Code validation failed:\n" ++
        String.intercalate "\n"
          ((validate_code request.script.ast).2.map (fun e => "  - " ++ e))) ∧
    (∀ msg, (execute_code transport request).1.error = some msg → 0 < msg.length) ∧
    (execute_code transport request).1.call_count = 0 ∧
    (execute_code transport request).2 = [] := by
  have e1 : execute_code transport request =
      ({ session_id := request.session_id, result := "", output := "",
         error := some ("Code validation failed:\n" ++
           String.intercalate "\n"
             ((validate_code request.script.ast).2.map (fun e => "  - " ++ e))),
         call_count := 0 }, []) := by
    unfold execute_code execute
    simp only [h, Bool.false_eq_true, if_false, mkRlmRepl]
  rw [e1]
  refine ⟨rfl, rfl, rfl, ?_, rfl, rfl⟩
  intro msg hm
  have hmsg := Option.some.inj hm
  have hlit : ("Code validation failed:\n").length = 24 := rfl
  have hlen := String.length_append "Code validation failed:\n"
    (String.intercalate "\n" ((validate_code request.script.ast).2.map (fun e => "  - " ++ e)))
  subst hmsg
  omega

/-- C2 witness: a concrete rejected script (import os). -/
theorem validation_rejection_result_witness :
    (execute_code okTransport importReq).1.error =
      some "Code validation failed:\n  - Import statements not allowed: import os" ∧
    (execute_code okTransport importReq).1.call_count = 0 ∧
    (execute_code okTransport importReq).2 = [] := by
  have h := validation_rejection_result okTransport importReq (by decide)
  refine ⟨?_, h.2.2.2.2.1, h.2.2.2.2.2⟩
  rw [h.2.2.1]
  decide

/-- C10: the instance counter starts at zero at construction, execute
never resets it (it is monotone across successive execute calls on the
same instance), a validation-rejection result reports the cumulative
counter as it stood, and a validated run reports it plus the delegation
attempts of this run. -/
theorem call_count_cumulative :
    (∀ (session_id : String) (context : Ctx) (m : Nat),
        (mkRlmRepl session_id context m)._call_count = 0) ∧
    (∀ (repl : RlmRepl) (cb : Callback) (script : Script),
        repl._call_count ≤ (execute repl cb script).2.1._call_count) ∧
    (∀ (repl : RlmRepl) (cb : Callback) (script : Script),
        (validate_code script.ast).1 = false →
        (execute repl cb script).1.call_count = repl._call_count) ∧
    (∀ (repl : RlmRepl) (cb : Callback) (script : Script),
        (validate_code script.ast).1 = true →
        (execute repl cb script).1.call_count =
          repl._call_count + countDelegations script.actions) := by
  refine ⟨fun _ _ _ => rfl, ?_, ?_, ?_⟩
  · intro repl cb script
    unfold execute
    cases hv : (validate_code script.ast).1 with
    | false => simp only [hv, Bool.false_eq_true, if_false]; exact Nat.le_refl _
    | true =>
      simp only [hv, if_true]
      rw [runActions_call_count]
      exact Nat.le_add_right _ _
  · intro repl cb script hv
    unfold execute
    simp only [hv, Bool.false_eq_true, if_false]
  · intro repl cb script hv
    unfold execute
    simp only [hv, if_true]
    exact runActions_call_count cb script.actions (initState repl)

/-- C10 witness: concrete instances of each conjunct. -/
theorem call_count_cumulative_witness :
    (mkRlmRepl "s" sampleCtx 50000)._call_count = 0 ∧
    (execute exhaustedRepl noopCb importScript).1.call_count = 20 ∧
    (execute exhaustedRepl noopCb delegScript).1.call_count = 21 := by
  refine ⟨call_count_cumulative.1 "s" sampleCtx 50000, ?_, ?_⟩
  · have h := call_count_cumulative.2.2.1 exhaustedRepl noopCb importScript (by decide)
    rw [h]
    rfl
  · have h := call_count_cumulative.2.2.2 exhaustedRepl noopCb delegScript (by decide)
    rw [h]
    decide

/-- C4: rlm_call increments the counter exactly once per invocation,
unconditionally (so before and regardless of any budget check), and the
call_count a validated execution reports equals the number of delegation
attempts the script made, rejected attempts included. -/
theorem call_count_exact_increment :
    (∀ (repl : RlmRepl) (cb : Callback) (prompt : String) (subset : Option Ctx),
        (rlm_call repl cb prompt subset).2.1._call_count = repl._call_count + 1) ∧
    (∀ (transport : TransportReq → TransportOutcome) (request : ExecuteRequest),
        (validate_code request.script.ast).1 = true →
        (execute_code transport request).1.call_count =
          countDelegations request.script.actions) := by
  constructor
  · intro repl cb prompt subset
    rw [rlm_call_state]
  · intro transport request hv
    unfold execute_code
    dsimp only
    unfold execute
    simp only [hv, if_true]
    rw [runActions_call_count]
    have h0 : (initState (mkRlmRepl request.session_id request.context
        DEFAULT_MAX_OUTPUT_LEN)).repl._call_count = 0 := rfl
    omega

/-- C4 witness: a budget-exhausted repl still counts the attempt, and a
fresh request reports exactly the one delegation its script made. -/
theorem call_count_exact_increment_witness :
    (rlm_call exhaustedRepl noopCb "p" Option.none).2.1._call_count = 21 ∧
    (execute_code okTransport delegReq).1.call_count = 1 := by
  constructor
  · rw [call_count_exact_increment.1 exhaustedRepl noopCb "p" Option.none]
    rfl
  · have h := call_count_exact_increment.2 okTransport delegReq (by decide)
    rw [h]
    decide

/-- C1 (amended): the context accessors and the broker never write the
mapping, so an execution whose script performs no write through the
context reference the namespace exposes returns with the mapping it was
given; the original claim fails because that reference is mutable (see
the counterexample). -/
theorem context_unchanged_without_mutation (repl : RlmRepl) (cb : Callback)
    (script : Script) (h : ∀ a ∈ script.actions, a.mutatesContext = false) :
    (execute repl cb script).2.1.context = repl.context := by
  unfold execute
  cases hv : (validate_code script.ast).1 with
  | false => simp only [hv, Bool.false_eq_true, if_false]
  | true =>
    simp only [hv, if_true]
    exact runActions_context_frame cb script.actions h (initState repl)

/-- C1 witness: an execution that only prints and sets the result slot
leaves the supplied mapping untouched. -/
theorem context_unchanged_without_mutation_witness :
    (execute (mkRlmRepl "s" sampleCtx 50000) noopCb printScript).2.1.context = sampleCtx :=
  context_unchanged_without_mutation (mkRlmRepl "s" sampleCtx 50000) noopCb printScript
    (by decide)

/-- C1 counterexample: the single-assignment script that writes through
the exposed context reference passes validation, yet after execute
returns the mapping differs from the mapping the caller supplied. -/
theorem context_mutation_counterexample :
    (validate_code mutScript.ast).1 = true ∧
    (execute (mkRlmRepl "s" sampleCtx 50000) noopCb mutScript).2.1.context ≠ sampleCtx ∧
    (execute (mkRlmRepl "s" sampleCtx 50000) noopCb mutScript).2.1.context =
      [("doc1", "alpha"), ("x", "y")] := by
  refine ⟨by decide, by decide, by decide⟩


/-- C3: a delegation whose incremented counter exceeds max_calls returns
the call-budget token and performs no transport request; otherwise at
depth at least max_depth it returns the depth-budget token and performs
no transport request; otherwise it performs exactly one transport
request, carrying depth current_depth + 1. -/
theorem delegate_budget_checks (repl : RlmRepl) (callback_url session_id : String)
    (depth max_depth : Nat) (transport : TransportReq → TransportOutcome)
    (prompt : String) (subset : Option Ctx) :
    (repl._call_count + 1 > repl._max_calls →
      (delegate repl callback_url session_id depth max_depth transport prompt subset).1 =
        s!"[ERROR: Max recursive calls ({repl._max_calls}) exceeded]" ∧
      (delegate repl callback_url session_id depth max_depth transport prompt subset).2.2 = []) ∧
    (repl._call_count + 1 ≤ repl._max_calls → depth ≥ max_depth →
      (delegate repl callback_url session_id depth max_depth transport prompt subset).1 =
        s!"[Max recursion depth ({max_depth}) reached]" ∧
      (delegate repl callback_url session_id depth max_depth transport prompt subset).2.2 = []) ∧
    (repl._call_count + 1 ≤ repl._max_calls → depth < max_depth →
      (delegate repl callback_url session_id depth max_depth transport prompt subset).2.2 =
        [outboundReq callback_url session_id prompt (subsetOrFull repl subset) (depth + 1)]) := by
  unfold delegate rlm_call make_recursive_callback
  dsimp only
  refine ⟨?_, ?_, ?_⟩
  · intro hgt
    rw [if_pos (by exact hgt)]
    exact ⟨rfl, rfl⟩
  · intro hle hdep
    rw [if_neg (by omega), if_pos hdep]
    exact ⟨rfl, rfl⟩
  · intro hle hdep
    rw [if_neg (by omega), if_neg (by omega)]
    cases subset with
    | none =>
      dsimp only [subsetOrFull]
      cases htr : transport (outboundReq callback_url session_id prompt repl.context
          (depth + 1)) <;> simp [htr]
    | some s =>
      dsimp only [subsetOrFull]
      cases htr : transport (outboundReq callback_url session_id prompt s
          (depth + 1)) <;> simp [htr]

/-- C3 witness: the three branches at concrete inputs. -/
theorem delegate_budget_checks_witness :
    (delegate (mkRlmRepl "s" sampleCtx 50000) "u" "s" 0 5 okTransport "p" Option.none).2.2 =
      [outboundReq "u" "s" "p" sampleCtx 1] ∧
    (delegate exhaustedRepl "u" "s" 0 5 okTransport "p" Option.none).1 =
      "[ERROR: Max recursive calls (20) exceeded]" ∧
    (delegate exhaustedRepl "u" "s" 0 5 okTransport "p" Option.none).2.2 = [] ∧
    (delegate (mkRlmRepl "s" sampleCtx 50000) "u" "s" 5 5 okTransport "p" Option.none).1 =
      "[Max recursion depth (5) reached]" := by
  have h1 := (delegate_budget_checks (mkRlmRepl "s" sampleCtx 50000) "u" "s" 0 5
    okTransport "p" Option.none).2.2 (by decide) (by decide)
  have h2 := (delegate_budget_checks exhaustedRepl "u" "s" 0 5
    okTransport "p" Option.none).1 (by decide)
  have h3 := (delegate_budget_checks (mkRlmRepl "s" sampleCtx 50000) "u" "s" 5 5
    okTransport "p" Option.none).2.1 (by decide) (by decide)
  exact ⟨h1, h2.1, h2.2, h3.1⟩

/-- C5: under the budgets, the delegate operation maps every transport
outcome to an in-band string: timeout to the timed-out token, any other
failure to the error token embedding the diagnostic, success to the
response's result field, empty when that field is absent; it never
raises a fault back into the script. -/
theorem delegate_transport_outcomes (repl : RlmRepl) (callback_url session_id : String)
    (depth max_depth : Nat) (transport : TransportReq → TransportOutcome)
    (prompt : String) (subset : Option Ctx)
    (hcalls : repl._call_count + 1 ≤ repl._max_calls) (hdepth : depth < max_depth) :
    (transport (outboundReq callback_url session_id prompt (subsetOrFull repl subset)
        (depth + 1)) = TransportOutcome.timeout →
      (delegate repl callback_url session_id depth max_depth transport prompt subset).1 =
        "[ERROR: Recursive call timed out]") ∧
    (∀ msg, transport (outboundReq callback_url session_id prompt (subsetOrFull repl subset)
        (depth + 1)) = TransportOutcome.failure msg →
      (delegate repl callback_url session_id depth max_depth transport prompt subset).1 =
        s!"[ERROR: Recursive call failed - {msg}]") ∧
    (∀ r, transport (outboundReq callback_url session_id prompt (subsetOrFull repl subset)
        (depth + 1)) = TransportOutcome.success r →
      (delegate repl callback_url session_id depth max_depth transport prompt subset).1 =
        r.getD "") := by
  unfold delegate rlm_call make_recursive_callback
  dsimp only
  rw [if_neg (by omega), if_neg (by omega)]
  cases subset with
  | none =>
    dsimp only [subsetOrFull]
    refine ⟨?_, ?_, ?_⟩
    · intro htr; rw [htr]
    · intro msg htr; rw [htr]
    · intro r htr; rw [htr]
  | some s =>
    dsimp only [subsetOrFull]
    refine ⟨?_, ?_, ?_⟩
    · intro htr; rw [htr]
    · intro msg htr; rw [htr]
    · intro r htr; rw [htr]

/-- C5 witness: the timeout, failure, present-result and absent-result
outcomes at concrete inputs. -/
theorem delegate_transport_outcomes_witness :
    (delegate (mkRlmRepl "s" sampleCtx 50000) "u" "s" 0 5 timeoutTransport "p" Option.none).1 =
      "[ERROR: Recursive call timed out]" ∧
    (delegate (mkRlmRepl "s" sampleCtx 50000) "u" "s" 0 5 failTransport "p" Option.none).1 =
      "[ERROR: Recursive call failed - boom]" ∧
    (delegate (mkRlmRepl "s" sampleCtx 50000) "u" "s" 0 5 okTransport "p" Option.none).1 =
      "hi" ∧
    (delegate (mkRlmRepl "s" sampleCtx 50000) "u" "s" 0 5 absentTransport "p" Option.none).1 =
      "" := by
  refine ⟨?_, ?_, ?_, ?_⟩
  · exact (delegate_transport_outcomes (mkRlmRepl "s" sampleCtx 50000) "u" "s" 0 5
      timeoutTransport "p" Option.none (by decide) (by decide)).1 rfl
  · exact (delegate_transport_outcomes (mkRlmRepl "s" sampleCtx 50000) "u" "s" 0 5
      failTransport "p" Option.none (by decide) (by decide)).2.1 "boom" rfl
  · exact (delegate_transport_outcomes (mkRlmRepl "s" sampleCtx 50000) "u" "s" 0 5
      okTransport "p" Option.none (by decide) (by decide)).2.2 (some "hi") rfl
  · exact (delegate_transport_outcomes (mkRlmRepl "s" sampleCtx 50000) "u" "s" 0 5
      absentTransport "p" Option.none (by decide) (by decide)).2.2 Option.none rfl


/-- C6: the output of every execution is bounded by the ceiling plus the
marker; an over-long capture is cut to exactly max_output_len code
points with the marker appended, a capture within the ceiling is
returned unchanged, and every validated execution's output is exactly
the truncation of what the script printed. -/
theorem output_truncation_bound :
    (∀ (repl : RlmRepl) (cb : Callback) (script : Script),
        (execute repl cb script).1.output.length ≤
          repl._max_output_len + TRUNCATION_MARKER.length) ∧
    (∀ (max_output_len : Nat) (s : String), s.length > max_output_len →
        truncateOutput max_output_len s = strTake s max_output_len ++ TRUNCATION_MARKER ∧
        (strTake s max_output_len).length = max_output_len ∧
        (truncateOutput max_output_len s).length =
          max_output_len + TRUNCATION_MARKER.length) ∧
    (∀ (max_output_len : Nat) (s : String), s.length ≤ max_output_len →
        truncateOutput max_output_len s = s) ∧
    (∀ (repl : RlmRepl) (cb : Callback) (script : Script),
        (validate_code script.ast).1 = true →
        (execute repl cb script).1.output =
          truncateOutput repl._max_output_len
            (runActions cb (initState repl) script.actions).output) := by
  have hTake : ∀ (m : Nat) (s : String), s.length > m → (strTake s m).length = m := by
    intro m s h
    have h1 : (strTake s m).length = (s.data.take m).length := rfl
    have h2 : s.length = s.data.length := rfl
    rw [h1, List.length_take]
    omega
  refine ⟨?_, ?_, ?_, ?_⟩
  · intro repl cb script
    unfold execute
    dsimp only
    cases hv : (validate_code script.ast).1 with
    | false =>
      simp only [Bool.false_eq_true, if_false]
      exact Nat.zero_le _
    | true =>
      simp only [if_true]
      have hm := runActions_max_output_len cb script.actions (initState repl)
      have h0 : (initState repl).repl._max_output_len = repl._max_output_len := rfl
      rw [hm, h0]
      exact truncateOutput_length_le _ _
  · intro m s h
    have he : truncateOutput m s = strTake s m ++ TRUNCATION_MARKER := by
      unfold truncateOutput
      rw [if_pos h]
    refine ⟨he, hTake m s h, ?_⟩
    rw [he, String.length_append, hTake m s h]
  · intro m s h
    unfold truncateOutput
    rw [if_neg (by omega)]
  · intro repl cb script hv
    unfold execute
    dsimp only
    simp only [hv, if_true]
    have hm := runActions_max_output_len cb script.actions (initState repl)
    have h0 : (initState repl).repl._max_output_len = repl._max_output_len := rfl
    rw [hm, h0]

/-- C6 witness: truncation and pass-through at concrete inputs. -/
theorem output_truncation_bound_witness :
    truncateOutput 5 "abcdefgh" = "abcde" ++ TRUNCATION_MARKER ∧
    (truncateOutput 5 "abcdefgh").length = 5 + TRUNCATION_MARKER.length ∧
    truncateOutput 9000 "ok" = "ok" := by
  have h1 := output_truncation_bound.2.1 5 "abcdefgh" (by decide)
  have h2 := output_truncation_bound.2.2.1 9000 "ok" (by decide)
  refine ⟨?_, h1.2.2, h2⟩
  rw [h1.1]
  have hs : strTake "abcdefgh" 5 = "abcde" := by decide
  rw [hs]

/-- C7: when the script raised, execute still returns normally: the
error field holds the fault kind, message and trace, while the output
captured before the fault (truncated) and the result slot's value at
the fault (coerced) are preserved in the returned result. -/
theorem runtime_fault_captured (repl : RlmRepl) (cb : Callback) (script : Script)
    (hv : (validate_code script.ast).1 = true) (f : Fault)
    (hf : script.fault = some f) :
    (execute repl cb script).1.error =
      some (f.kind ++ ": " ++ f.msg ++ "\n" ++ f.trace) ∧
    (execute repl cb script).1.output =
      truncateOutput repl._max_output_len
        (runActions cb (initState repl) script.actions).output ∧
    (execute repl cb script).1.result =
      coerceResult (runActions cb (initState repl) script.actions).result_slot := by
  unfold execute
  dsimp only
  simp only [hv, if_true, hf, Option.map_some']
  refine ⟨by trivial, ?_, by trivial⟩
  have hm := runActions_max_output_len cb script.actions (initState repl)
  have h0 : (initState repl).repl._max_output_len = repl._max_output_len := rfl
  rw [hm, h0]

/-- C7 witness: a script that prints, sets the slot to a non-string and
then faults; everything before the fault is preserved. -/
theorem runtime_fault_captured_witness :
    (execute (mkRlmRepl "s" sampleCtx 50000) noopCb faultScript).1.error =
      some "ZeroDivisionError: division by zero\nTraceback (most recent call last): ..." ∧
    (execute (mkRlmRepl "s" sampleCtx 50000) noopCb faultScript).1.output = "before\n" ∧
    (execute (mkRlmRepl "s" sampleCtx 50000) noopCb faultScript).1.result = "1" := by
  have h := runtime_fault_captured (mkRlmRepl "s" sampleCtx 50000) noopCb faultScript
    (by decide)
    { kind := "ZeroDivisionError", msg := "division by zero",
      trace := "Traceback (most recent call last): ..." } rfl
  refine ⟨?_, ?_, ?_⟩
  · rw [h.1]
    decide
  · rw [h.2.1]
    decide
  · rw [h.2.2]
    decide

/-- C8: the result of every validated execution is the textual
conversion of the result slot's final value: a string slot passes
through unchanged and a non-string slot is converted by str(). -/
theorem result_string_coercion (repl : RlmRepl) (cb : Callback) (script : Script)
    (hv : (validate_code script.ast).1 = true) :
    (execute repl cb script).1.result =
      pyStr (runActions cb (initState repl) script.actions).result_slot := by
  unfold execute
  dsimp only
  simp only [hv, if_true]
  exact coerceResult_eq_pyStr _

/-- C8 witness: a script that assigns the integer 42 to the result slot
still yields the string result 42. -/
theorem result_string_coercion_witness :
    (execute (mkRlmRepl "s" sampleCtx 50000) noopCb intResultScript).1.result = "42" := by
  have h := result_string_coercion (mkRlmRepl "s" sampleCtx 50000) noopCb intResultScript
    (by decide)
  rw [h]
  decide


/-- charsBeginWith decides the prefix relation. -/
lemma charsBeginWith_iff (n h : List Char) : charsBeginWith n h = true ↔ n <+: h := by
  induction n generalizing h with
  | nil => simp [charsBeginWith]
  | cons a as ih =>
    cases h with
    | nil => simp [charsBeginWith]
    | cons b bs =>
      rw [List.cons_prefix_cons]
      simp only [charsBeginWith, Bool.and_eq_true, beq_iff_eq, ih]

/-- charsContain decides the infix (substring) relation. -/
lemma charsContain_iff (n h : List Char) : charsContain n h = true ↔ n <:+: h := by
  induction h with
  | nil => simp [charsContain, List.isEmpty_iff]
  | cons b t ih =>
    rw [List.infix_cons_iff]
    simp [charsContain, charsBeginWith_iff, ih]

/-- C9: search_context returns exactly the entries of the context whose
key or value contains the pattern as a case-insensitive substring, each
key keeping its unchanged value, and the returned mapping is a
sub-sequence of the context (order and pairing preserved). -/
theorem search_context_characterization (repl : RlmRepl) (pattern k v : String) :
    ((k, v) ∈ search_context repl pattern ↔
      (k, v) ∈ repl.context ∧
        ((pyLower pattern).data <:+: (pyLower k).data ∨
         (pyLower pattern).data <:+: (pyLower v).data)) ∧
    (search_context repl pattern).Sublist repl.context := by
  constructor
  · unfold search_context
    dsimp only
    rw [List.mem_filter]
    simp [pySubstr, charsContain_iff]
  · exact List.filter_sublist _

/-- C9 witness: a case-insensitive hit on a value at a concrete input. -/
theorem search_context_characterization_witness :
    ("Doc1", "Alpha") ∈
      search_context (mkRlmRepl "s" [("Doc1", "Alpha"), ("doc2", "beta")] 50000) "ALP" ∧
    search_context (mkRlmRepl "s" [("Doc1", "Alpha"), ("doc2", "beta")] 50000) "ALP" =
      [("Doc1", "Alpha")] := by
  constructor
  · exact (search_context_characterization
      (mkRlmRepl "s" [("Doc1", "Alpha"), ("doc2", "beta")] 50000) "ALP" "Doc1" "Alpha").1.mpr
      ⟨by decide, Or.inr ((charsContain_iff _ _).mp (by decide))⟩
  · decide

end GrigoriRlm
